import Mathlib

/-!
Verification of the elevator-simulator browser client (`src/static/main.js`).

The client is shallowly embedded: the DOM elements touched by the script
become fields of a `View` record, the module-level `latestState` slot and
the on-screen log become fields of a `ClientState` record, and each of the
three functions of the script (`log`, `fetchState`, `requestFloor`) becomes
a pure Lean function taking the network response and the current wall-clock
time string as explicit inputs.

JavaScript is untyped, so the parsed JSON body of a poll is embedded as a
`RawState` whose `queue` and `floors` fields are optional: reading
`state.queue.length` or spreading `state.floors` when the field is absent
throws a `TypeError` in the browser, which the embedding models by
`renderState` returning the partially updated view together with an error
message.  Fields whose absence does not throw (`direction`, `currentFloor`,
`numFloors`) render as the string `"undefined"`, as assigning `undefined`
to `textContent` does.
-/

namespace ElevatorClient

/-- One per-floor record of the server snapshot: `{ floor, state }`,
where `state` is one of the strings `"Idle" | "Queued" | "Moving" | "Current"`
(kept as a string because the script compares it with string literals). -/
structure FloorInfo where
  floor : Int
  stateTag : String
deriving DecidableEq, Repr

/-- The parsed JSON body of a `/state` response, with every field optional:
the script performs no schema validation, so any of them may be `undefined`. -/
structure RawState where
  direction : Option String
  currentFloor : Option Int
  activeTarget : Option Int
  queue : Option (List Int)
  numFloors : Option Int
  floors : Option (List FloorInfo)
deriving DecidableEq, Repr

/-- A rendered floor button: `className` collects the classes added by
`className = 'floor'` and the `classList.add` calls, `textContent` is the
label, `onclickFloor` the floor captured by the `onclick` closure, and
`disabled` the disabled flag. -/
structure Button where
  className : List String
  textContent : String
  onclickFloor : Int
  disabled : Bool
deriving DecidableEq, Repr

/-- The DOM elements the script writes: the five status text fields, the
queue-chip container (one string per chip) and the floor-button container. -/
structure View where
  dirText : String
  currentText : String
  targetText : String
  queueSizeText : String
  floorCountText : String
  queueChips : List String
  floorButtons : List Button
deriving DecidableEq, Repr

/-- `undefined` rendered through a template string / `textContent`. -/
def optIntText : Option Int → String
  | some n => toString n
  | none => "undefined"

/-- `undefined` rendered through a template string. -/
def optStrText : Option String → String
  | some s => s
  | none => "undefined"

/-- Builds one floor button exactly as the loop body of `renderState` does:
base class `floor`, label and `onclick` from `info.floor`, one state class
for `Current` / `Moving` / `Queued`, and `disabled` when the state is in
`['Queued', 'Moving', 'Current']`. -/
def mkButton (info : FloorInfo) : Button :=
  { className :=
      ["floor"]
        ++ (if info.stateTag = "Current" then ["state-current"] else [])
        ++ (if info.stateTag = "Moving" then ["state-moving"] else [])
        ++ (if info.stateTag = "Queued" then ["state-queued"] else [])
  , textContent := toString info.floor
  , onclickFloor := info.floor
  , disabled := info.stateTag ∈ ["Queued", "Moving", "Current"] }

/-- `renderState(state)`.  Returns the view after the call together with
`none` on normal completion or `some msg` when the call throws: a falsy
`state` returns at once; otherwise the three scalar fields are written, then
`state.queue.length` throws if `queue` is absent, then the queue-dependent
fields and chips are written, then spreading `state.floors` throws if
`floors` is absent, and finally the floor buttons are rebuilt highest first. -/
def renderState (state : Option RawState) (v : View) : View × Option String :=
  match state with
  | none => (v, none)
  | some s =>
    let v := { v with
      dirText := "Direction: " ++ optStrText s.direction
      currentText := optIntText s.currentFloor
      targetText := match s.activeTarget with
        | some t => toString t
        | none => "-" }
    match s.queue with
    | none =>
      (v, some "TypeError: Cannot read properties of undefined (reading 'length')")
    | some q =>
      let v := { v with
        queueSizeText := toString q.length
        floorCountText := optIntText s.numFloors ++ " floors"
        queueChips := q.map (fun f => "Queued: " ++ toString f) }
      match s.floors with
      | none => (v, some "TypeError: state.floors is not iterable")
      | some fs =>
        ({ v with floorButtons := (fs.reverse).map mkButton }, none)

/-- `log(msg)`: prepend a line `[time] msg` to the on-screen log (newest
first), then remove the last line when more than 80 are present. -/
def logMsg (time msg : String) (lines : List String) : List String :=
  let lines := ("[" ++ time ++ "] " ++ msg) :: lines
  if lines.length > 80 then lines.dropLast else lines

/-- The whole mutable state of the page: the `latestState` slot, the
rendered view, and the log lines (newest first). -/
structure ClientState where
  latestState : Option RawState
  view : View
  logLines : List String
deriving DecidableEq, Repr

/-- The outcome of `fetch('/state')` as the script observes it: either the
promise rejects (transport failure), or a response arrives with an `ok`
flag, the body text (read by `res.text()` on the error path) and the result
of parsing the body as JSON (read by `res.json()` on the success path). -/
inductive PollResponse where
  | netError (msg : String)
  | response (ok : Bool) (bodyText : String) (bodyJson : Except String RawState)
deriving Repr

/-- `fetchState()` for one poll, given the response and the current time:
on a rejected fetch or a non-ok status or a parse failure, one log line is
appended and nothing else changes; on success `latestState` is overwritten
with the parsed body and `renderState` runs, any exception it throws being
caught and logged. -/
def fetchState (resp : PollResponse) (time : String) (c : ClientState) :
    ClientState :=
  match resp with
  | .netError msg =>
    { c with logLines := logMsg time ("State error: " ++ msg) c.logLines }
  | .response ok bodyText bodyJson =>
    if ok then
      match bodyJson with
      | .error e =>
        { c with logLines := logMsg time ("State error: " ++ e) c.logLines }
      | .ok data =>
        match renderState (some data) c.view with
        | (v, none) => { c with latestState := some data, view := v }
        | (v, some e) =>
          { latestState := some data, view := v,
            logLines := logMsg time ("State error: " ++ e) c.logLines }
    else
      { c with
        logLines :=
          logMsg time ("State error: " ++ ("Error: " ++ bodyText)) c.logLines }

/-- The parsed JSON body of a `/request` response: optional `message`,
`detail` and `state` fields. -/
structure RequestBody where
  message : Option String
  detail : Option String
  state : Option RawState
deriving DecidableEq, Repr

/-- The outcome of `fetch('/request', ...)`: a rejected promise, or a
response with its `ok` flag, its `statusText`, and the result of
`res.json()` (which the script awaits before checking `ok`). -/
inductive RequestResponse where
  | netError (msg : String)
  | response (ok : Bool) (statusText : String) (bodyJson : Except String RequestBody)
deriving Repr

/-- JavaScript truthiness of an optional string (`undefined` and `""` are
falsy), as used by `data.detail || res.statusText` and
`data.message || ...`. -/
def orElseStr (o : Option String) (dflt : String) : String :=
  match o with
  | some s => if s = "" then dflt else s
  | none => dflt

/-- `requestFloor(floor)` for one submission, given the response and the
current time.  The body is parsed first; a non-ok status then throws
`Error(data.detail || res.statusText)`; on success a log line with
`data.message || 'Requested floor N'` is appended and the view is rendered
from `data.state || latestState` — the `latestState` slot itself is never
written.  Every exception is caught and logged as `Request error: ...`. -/
def requestFloor (floor : Int) (resp : RequestResponse) (time : String)
    (c : ClientState) : ClientState :=
  match resp with
  | .netError msg =>
    { c with logLines := logMsg time ("Request error: " ++ msg) c.logLines }
  | .response ok statusText bodyJson =>
    match bodyJson with
    | .error e =>
      { c with logLines := logMsg time ("Request error: " ++ e) c.logLines }
    | .ok data =>
      if ok then
        let afterLog :=
          logMsg time (orElseStr data.message ("Requested floor " ++ toString floor))
            c.logLines
        let rendered :=
          match data.state with
          | some s => renderState (some s) c.view
          | none => renderState c.latestState c.view
        match rendered with
        | (v, none) => { c with view := v, logLines := afterLog }
        | (v, some e) =>
          { c with
              view := v,
              logLines := logMsg time ("Request error: " ++ e) afterLog }
      else
        { c with
          logLines :=
            logMsg time
              ("Request error: " ++ ("Error: " ++ orElseStr data.detail statusText))
              c.logLines }

/-! ### Derived definitions used by the statements -/

/-- The text of the log line produced for one `(time, msg)` entry. -/
def fmtEntry (e : String × String) : String := "[" ++ e.1 ++ "] " ++ e.2

/-- A whole sequence of `log` calls, oldest first, each with its own
wall-clock time. -/
def appendAll (entries : List (String × String)) (lines : List String) :
    List String :=
  entries.foldl (fun acc e => logMsg e.1 e.2 acc) lines

/-- The error text a poll converts to a log line, when the poll fails in
the sense of the spec's failure taxonomy (transport failure, non-2xx
status, malformed body); `none` when the HTTP exchange and parse succeed. -/
def pollErrText : PollResponse → Option String
  | .netError msg => some msg
  | .response ok bodyText bodyJson =>
    if ok then
      match bodyJson with
      | .error e => some e
      | .ok _ => none
    else some ("Error: " ++ bodyText)

/-- The error text a request submission converts to a log line, when the
submission fails (transport failure, malformed body, or non-2xx status);
`none` when the submission succeeds. -/
def reqErrText : RequestResponse → Option String
  | .netError msg => some msg
  | .response ok statusText bodyJson =>
    match bodyJson with
    | .error e => some e
    | .ok data =>
      if ok then none
      else some ("Error: " ++ orElseStr data.detail statusText)

/-! ### Concrete fixtures for witnesses and counterexamples -/

/-- A blank view, standing for the page before any render. -/
def sampleView : View :=
  { dirText := "", currentText := "", targetText := "", queueSizeText := ""
  , floorCountText := "", queueChips := [], floorButtons := [] }

/-- A well-formed three-floor snapshot with the car at floor 1. -/
def stateA : RawState :=
  { direction := some "Idle", currentFloor := some 1, activeTarget := none
  , queue := some [], numFloors := some 3
  , floors := some [⟨1, "Current"⟩, ⟨2, "Idle"⟩, ⟨3, "Idle"⟩] }

/-- A well-formed three-floor snapshot with the car at floor 2. -/
def stateB : RawState :=
  { direction := some "Up", currentFloor := some 2, activeTarget := some 3
  , queue := some [3], numFloors := some 3
  , floors := some [⟨1, "Idle"⟩, ⟨2, "Current"⟩, ⟨3, "Queued"⟩] }

/-- A shape-invalid snapshot: parses as JSON but has no `queue` field. -/
def stateNoQueue : RawState :=
  { direction := some "Up", currentFloor := some 7, activeTarget := none
  , queue := none, numFloors := none, floors := none }

/-- A client that has already completed one successful poll of `stateA`. -/
def clientA : ClientState :=
  { latestState := some stateA
  , view := (renderState (some stateA) sampleView).1
  , logLines := [] }

/-- The five-floor scenario of the spec: car at floor 3, all else idle. -/
def fiveFloors : List FloorInfo :=
  [⟨1, "Idle"⟩, ⟨2, "Idle"⟩, ⟨3, "Current"⟩, ⟨4, "Idle"⟩, ⟨5, "Idle"⟩]

/-- The five-floor snapshot of the spec scenario. -/
def stateFive : RawState :=
  { direction := some "Idle", currentFloor := some 3, activeTarget := none
  , queue := some [], numFloors := some 5, floors := some fiveFloors }

/-- A snapshot whose queue holds the same floor twice. -/
def stateDupQueue : RawState :=
  { direction := some "Up", currentFloor := some 1, activeTarget := some 2
  , queue := some [2, 2], numFloors := some 3
  , floors := some [⟨1, "Current"⟩, ⟨2, "Queued"⟩, ⟨3, "Idle"⟩] }

/-! ### Log-buffer lemmas -/

theorem logMsg_eq_take (t m : String) (lines : List String)
    (h : lines.length ≤ 80) :
    logMsg t m lines = (fmtEntry (t, m) :: lines).take 80 := by
  unfold logMsg fmtEntry
  by_cases h81 : (("[" ++ t ++ "] " ++ m) :: lines).length > 80
  · have hlen : (("[" ++ t ++ "] " ++ m) :: lines).length = 81 := by
      simp only [List.length_cons] at h81 ⊢
      omega
    rw [if_pos h81, List.dropLast_eq_take, hlen]
  · rw [if_neg h81]
    exact (List.take_of_length_le (by simpa using Nat.not_lt.mp h81)).symm

theorem appendAll_take (entries : List (String × String)) (pre : List String) :
    appendAll entries (pre.take 80)
      = ((entries.map fmtEntry).reverse ++ pre).take 80 := by
  induction entries generalizing pre with
  | nil => simp [appendAll]
  | cons e es ih =>
    rcases e with ⟨t, m⟩
    have hstep : logMsg t m (pre.take 80) = ((fmtEntry (t, m) :: pre).take 80) := by
      have hrw := logMsg_eq_take t m (pre.take 80)
        (by simp)
      rw [hrw]
      rcases Nat.le_total pre.length 79 with hle | hge
      · rw [List.take_of_length_le (l := pre) (by omega),
          List.take_of_length_le (by simp; omega)]
      · show (fmtEntry (t, m) :: pre.take 80).take 80 = (fmtEntry (t, m) :: pre).take 80
        simp [List.take_succ_cons, List.take_take]
    have hfold : appendAll ((t, m) :: es) (pre.take 80)
        = appendAll es (logMsg t m (pre.take 80)) := rfl
    rw [hfold, hstep, ih (fmtEntry (t, m) :: pre)]
    simp

/-! ### Claim theorems -/

/-- C2: the log buffer, fed any sequence of appends starting from the empty
page, always holds exactly the most recent entries, newest first, truncated
to 80; its length is `min n 80`, hence never exceeds 80, and a run of 200
appends retains exactly 80. -/
theorem log_buffer_bounded_newest_first (entries : List (String × String)) :
    appendAll entries [] = ((entries.map fmtEntry).reverse).take 80 ∧
    (appendAll entries []).length = min entries.length 80 ∧
    (appendAll entries []).length ≤ 80 ∧
    (entries.length = 200 → (appendAll entries []).length = 80) := by
  have hmain : appendAll entries [] = ((entries.map fmtEntry).reverse).take 80 := by
    have := appendAll_take entries []
    simpa using this
  refine ⟨hmain, ?_, ?_, ?_⟩
  · rw [hmain]
    simp [Nat.min_comm]
  · rw [hmain]
    simp
  · intro h200
    rw [hmain]
    simp [h200]

/-- C5: rendering is idempotent — rendering any state (present or absent,
well-formed or not) into the view produced by rendering it once yields the
same view and the same thrown-or-not outcome. -/
theorem renderState_idempotent (st : Option RawState) (v : View) :
    renderState st (renderState st v).1 = renderState st v := by
  rcases st with _ | s
  · rfl
  · rcases s with ⟨d, cf, at_, q, nf, fl⟩
    rcases q with _ | q
    · rfl
    · rcases fl with _ | fl <;> rfl

/-- C6: rendering with an absent state is a no-op: the view is returned
untouched and nothing is thrown. -/
theorem renderState_absent_noop (v : View) : renderState none v = (v, none) := rfl

/-- C8: for every snapshot whose `queue` field is present, rendering
produces one chip per queue element, in queue order, labeled with that
element's floor number — duplicates included, since the chip list is
exactly the element-wise image of the queue. -/
theorem renderState_queue_chips (s : RawState) (v : View) (q : List Int)
    (hq : s.queue = some q) :
    (renderState (some s) v).1.queueChips
        = q.map (fun f => "Queued: " ++ toString f) ∧
    (renderState (some s) v).1.queueChips.length = q.length := by
  rcases s with ⟨d, cf, at_, qq, nf, fl⟩
  cases hq
  rcases fl with _ | fl <;> simp [renderState]

/-- Witness for C8 at a queue holding floor 2 twice: two separate chips. -/
theorem renderState_queue_chips_witness :
    (renderState (some stateDupQueue) sampleView).1.queueChips
        = [2, 2].map (fun f : Int => "Queued: " ++ toString f) ∧
    (renderState (some stateDupQueue) sampleView).1.queueChips.length
        = ([2, 2] : List Int).length :=
  renderState_queue_chips stateDupQueue sampleView [2, 2] rfl

/-- Witness for C2's 200-append conjunct: 200 appends retain exactly 80. -/
theorem log_buffer_bounded_newest_first_witness :
    (appendAll (List.replicate 200 ("12:00:00", "tick")) []).length = 80 :=
  (log_buffer_bounded_newest_first (List.replicate 200 ("12:00:00", "tick"))).2.2.2
    (by rw [List.length_replicate])

/-- C3: a poll that fails in the spec's taxonomy (transport failure,
non-2xx status, malformed body) changes the client state only by appending
the single log line describing the error; `latestState` and the view keep
their previous values. -/
theorem fetchState_failure_logs_only (resp : PollResponse) (time : String)
    (c : ClientState) (e : String) (h : pollErrText resp = some e) :
    fetchState resp time c
      = { c with logLines := logMsg time ("State error: " ++ e) c.logLines } := by
  rcases resp with msg | ⟨ok, bodyText, bodyJson⟩
  · have he : msg = e := Option.some.inj h
    subst he
    rfl
  · rcases ok with _ | _
    · have he : "Error: " ++ bodyText = e := Option.some.inj h
      subst he
      rfl
    · rcases bodyJson with err | data
      · have he : err = e := Option.some.inj h
        subst he
        rfl
      · exact Option.noConfusion h

/-- Witness for C3, the spec's scenario: after a successful poll of
`stateA`, a poll answered HTTP 500 with body `"db down"` appends exactly
one line containing `"db down"` and leaves `latestState` at `stateA`. -/
theorem fetchState_failure_logs_only_witness :
    (fetchState (.response false "db down" (.error "ignored")) "12:00:01"
        clientA).latestState = some stateA ∧
    (fetchState (.response false "db down" (.error "ignored")) "12:00:01"
        clientA).logLines = ["[12:00:01] State error: Error: db down"] := by
  rw [fetchState_failure_logs_only (.response false "db down" (.error "ignored"))
    "12:00:01" clientA ("Error: " ++ "db down") rfl]
  exact ⟨rfl, rfl⟩

/-- C9: a poll whose HTTP exchange, JSON parse and render all succeed
replaces `latestState` with the parsed body and replaces the view with the
render of that body, and appends no log line at all. -/
theorem fetchState_success_silent (bodyText time : String) (data : RawState)
    (c : ClientState) (hrender : (renderState (some data) c.view).2 = none) :
    fetchState (.response true bodyText (.ok data)) time c
      = { latestState := some data
        , view := (renderState (some data) c.view).1
        , logLines := c.logLines } := by
  rcases hv : renderState (some data) c.view with ⟨v, err⟩
  have herr : err = none := by
    have := hrender
    rw [hv] at this
    exact this
  subst herr
  simp [fetchState, hv]

/-- Witness for C9: a successful poll of `stateB` after `clientA`'s first
poll replaces the slot and the view and leaves the (empty) log empty. -/
theorem fetchState_success_silent_witness :
    fetchState (.response true "" (.ok stateB)) "12:00:02" clientA
      = { latestState := some stateB
        , view := (renderState (some stateB) clientA.view).1
        , logLines := clientA.logLines } :=
  fetchState_success_silent "" "12:00:02" stateB clientA rfl

/-- C10: any poll body that parses as JSON overwrites `latestState`,
conformant to the snapshot schema or not; the view becomes whatever the
render reached before throwing, and a render failure is only logged. -/
theorem fetchState_no_schema_validation (bodyText time : String)
    (data : RawState) (c : ClientState) :
    (fetchState (.response true bodyText (.ok data)) time c).latestState
        = some data ∧
    (fetchState (.response true bodyText (.ok data)) time c).view
        = (renderState (some data) c.view).1 ∧
    (∀ e, (renderState (some data) c.view).2 = some e →
      (fetchState (.response true bodyText (.ok data)) time c).logLines
        = logMsg time ("State error: " ++ e) c.logLines) := by
  rcases hv : renderState (some data) c.view with ⟨v, err⟩
  rcases err with _ | e
  · refine ⟨?_, ?_, ?_⟩
    · simp [fetchState, hv]
    · simp [fetchState, hv]
    · intro e' he'
      exact Option.noConfusion he'
  · refine ⟨?_, ?_, ?_⟩
    · simp [fetchState, hv]
    · simp [fetchState, hv]
    · intro e' he'
      have he : e = e' := Option.some.inj he'
      subst he
      simp [fetchState, hv]

/-- Witness for C10: a body with no `queue` field still replaces
`latestState`, and the `TypeError` thrown while rendering it is logged. -/
theorem fetchState_no_schema_validation_witness :
    (fetchState (.response true "" (.ok stateNoQueue)) "12:00:03" clientA).latestState
        = some stateNoQueue ∧
    (fetchState (.response true "" (.ok stateNoQueue)) "12:00:03" clientA).logLines
        = ["[12:00:03] State error: TypeError: Cannot read properties of undefined (reading 'length')"] := by
  have h := fetchState_no_schema_validation "" "12:00:03" stateNoQueue clientA
  exact ⟨h.1, by rw [h.2.2 _ rfl]; rfl⟩

/-- A successful request body carrying a message and the snapshot `stateB`. -/
def reqBodyB : RequestBody :=
  { message := some "Queued floor 2", detail := some "", state := some stateB }

/-- An error body whose `detail` field is present but empty. -/
def reqBodyEmptyDetail : RequestBody :=
  { message := none, detail := some "", state := none }

/-- An error body with a non-empty `detail` field. -/
def reqBodyDetail : RequestBody :=
  { message := none, detail := some "No such floor", state := none }

/-- A client before its first successful poll. -/
def clientEmpty : ClientState :=
  { latestState := none, view := sampleView, logLines := [] }

/-- C1 counterexample: after a successful submission whose response embeds
`stateB`, the `latestState` slot still holds `stateA` — the request path
renders from the embedded state but never writes the slot, so a subsequent
read does not yield the response's state. -/
theorem requestFloor_keeps_latest_cx :
    (requestFloor 2 (.response true "OK" (.ok reqBodyB)) "12:00:04"
        clientA).latestState = some stateA ∧
    (requestFloor 2 (.response true "OK" (.ok reqBodyB)) "12:00:04"
        clientA).latestState ≠ some stateB := by
  constructor
  · rfl
  · decide

/-- C1 amended: a successful submission whose response embeds a state
re-renders the view from that embedded state but leaves the `latestState`
slot unchanged; a subsequent read of the slot yields the value from before
the request, not the response's state. -/
theorem requestFloor_renders_embedded_state (floor : Int)
    (statusText time : String) (data : RequestBody) (c : ClientState)
    (s : RawState) (hs : data.state = some s) :
    (requestFloor floor (.response true statusText (.ok data)) time c).latestState
        = c.latestState ∧
    (requestFloor floor (.response true statusText (.ok data)) time c).view
        = (renderState (some s) c.view).1 := by
  rcases hv : renderState (some s) c.view with ⟨v, err⟩
  rcases err with _ | e <;> simp [requestFloor, hs, hv]

/-- Witness for C1's amended claim at the concrete `stateB` response. -/
theorem requestFloor_renders_embedded_state_witness :
    (requestFloor 2 (.response true "OK" (.ok reqBodyB)) "12:00:04"
        clientA).latestState = clientA.latestState ∧
    (requestFloor 2 (.response true "OK" (.ok reqBodyB)) "12:00:04"
        clientA).view = (renderState (some stateB) clientA.view).1 :=
  requestFloor_renders_embedded_state 2 "OK" "12:00:04" reqBodyB clientA stateB rfl

/-- C7 counterexample: a 422-style response whose body carries a present
but empty `detail` field is logged with the raw status text, not with the
(empty) `detail` value — `||` tests truthiness, not presence. -/
theorem requestFloor_detail_fallback_cx :
    (requestFloor 4 (.response false "Unprocessable Entity"
        (.ok reqBodyEmptyDetail)) "12:00:05" clientEmpty).logLines
      = ["[12:00:05] Request error: Error: Unprocessable Entity"] ∧
    (requestFloor 4 (.response false "Unprocessable Entity"
        (.ok reqBodyEmptyDetail)) "12:00:05" clientEmpty).logLines
      ≠ ["[12:00:05] Request error: Error: "] := by
  constructor
  · rfl
  · decide

/-- C7 amended: a failed submission appends exactly one log line and leaves
the view and the `latestState` slot unchanged; for a non-2xx status whose
body parses as JSON the logged detail is the `detail` field when it is
present and non-empty and the raw status text otherwise, while a body that
fails to parse is logged with the parse error itself. -/
theorem requestFloor_failure_logs_only (floor : Int) (resp : RequestResponse)
    (time : String) (c : ClientState) (e : String)
    (h : reqErrText resp = some e) :
    requestFloor floor resp time c
      = { c with logLines := logMsg time ("Request error: " ++ e) c.logLines } := by
  rcases resp with msg | ⟨ok, statusText, bodyJson⟩
  · have he : msg = e := Option.some.inj h
    subst he
    rfl
  · rcases bodyJson with err | data
    · have he : err = e := Option.some.inj h
      subst he
      rfl
    · rcases ok with _ | _
      · have he : "Error: " ++ orElseStr data.detail statusText = e :=
          Option.some.inj h
        subst he
        rfl
      · exact Option.noConfusion h

/-- Witness for C7's amended claim: a non-empty `detail` is preferred over
the status text, and the view and slot are untouched. -/
theorem requestFloor_failure_logs_only_witness :
    (requestFloor 9 (.response false "Unprocessable Entity" (.ok reqBodyDetail))
        "12:00:06" clientA).logLines
      = ["[12:00:06] Request error: Error: No such floor"] ∧
    (requestFloor 9 (.response false "Unprocessable Entity" (.ok reqBodyDetail))
        "12:00:06" clientA).view = clientA.view ∧
    (requestFloor 9 (.response false "Unprocessable Entity" (.ok reqBodyDetail))
        "12:00:06" clientA).latestState = some stateA := by
  rw [requestFloor_failure_logs_only 9
    (.response false "Unprocessable Entity" (.ok reqBodyDetail)) "12:00:06" clientA
    ("Error: " ++ orElseStr (some "No such floor") "Unprocessable Entity") rfl]
  exact ⟨rfl, rfl, rfl⟩

/-- C4: rendering a valid snapshot (both sequence fields present, floor
list as long as `numFloors`, floors ascending, exactly one floor tagged
`Current` and that floor being `currentFloor`) rebuilds the button list as
the reverse of the server's floor order, hence highest floor first and one
button per floor; a floor tagged `Current`, `Moving` or `Queued` yields a
disabled button carrying the matching state class, a floor tagged `Idle`
yields an enabled one, and the button labeled `currentFloor` is disabled
and tagged `Current`. -/
theorem renderState_floor_buttons (s : RawState) (v : View) (q : List Int)
    (fs : List FloorInfo) (n cf : Int)
    (hq : s.queue = some q) (hf : s.floors = some fs)
    (hn : s.numFloors = some n) (hlen : (fs.length : Int) = n)
    (hcf : s.currentFloor = some cf)
    (hcount : fs.countP (fun i => i.stateTag == "Current") = 1)
    (hcur : ∀ info ∈ fs, info.stateTag = "Current" → info.floor = cf)
    (hsorted : List.Pairwise (fun a b => a.floor < b.floor) fs) :
    (renderState (some s) v).1.floorButtons = (fs.reverse).map mkButton ∧
    (((renderState (some s) v).1.floorButtons.length : Int) = n) ∧
    List.Pairwise (fun a b => b < a)
      ((renderState (some s) v).1.floorButtons.map Button.onclickFloor) ∧
    (∀ info ∈ fs, mkButton info ∈ (renderState (some s) v).1.floorButtons) ∧
    (∀ info ∈ fs, info.stateTag = "Current" →
      (mkButton info).disabled = true ∧ "state-current" ∈ (mkButton info).className) ∧
    (∀ info ∈ fs, info.stateTag = "Moving" →
      (mkButton info).disabled = true ∧ "state-moving" ∈ (mkButton info).className) ∧
    (∀ info ∈ fs, info.stateTag = "Queued" →
      (mkButton info).disabled = true ∧ "state-queued" ∈ (mkButton info).className) ∧
    (∀ info ∈ fs, info.stateTag = "Idle" → (mkButton info).disabled = false) ∧
    (∃ b ∈ (renderState (some s) v).1.floorButtons,
      b.textContent = toString cf ∧ b.disabled = true ∧
      "state-current" ∈ b.className) := by
  have hbs : (renderState (some s) v).1.floorButtons = (fs.reverse).map mkButton := by
    rcases s with ⟨d, scf, at_, qq, nf, fl⟩
    cases hq
    cases hf
    simp [renderState]
  refine ⟨hbs, ?_, ?_, ?_, ?_, ?_, ?_, ?_, ?_⟩
  · rw [hbs]
    simpa using hlen
  · rw [hbs, List.pairwise_map, List.pairwise_map, List.pairwise_reverse]
    exact hsorted
  · intro info hi
    rw [hbs]
    exact List.mem_map_of_mem _ (List.mem_reverse.mpr hi)
  · intro info _ h
    exact ⟨by simp [mkButton, h], by simp [mkButton, h]⟩
  · intro info _ h
    exact ⟨by simp [mkButton, h], by simp [mkButton, h]⟩
  · intro info _ h
    exact ⟨by simp [mkButton, h], by simp [mkButton, h]⟩
  · intro info _ h
    simp [mkButton, h]
  · have hpos : 0 < fs.countP (fun i => i.stateTag == "Current") := by
      rw [hcount]
      exact Nat.one_pos
    obtain ⟨info, hmem, hb⟩ := List.countP_pos_iff.mp hpos
    have heq : info.stateTag = "Current" := by simpa using hb
    refine ⟨mkButton info, ?_, ?_, ?_, ?_⟩
    · rw [hbs]
      exact List.mem_map_of_mem _ (List.mem_reverse.mpr hmem)
    · show toString info.floor = toString cf
      rw [hcur info hmem heq]
    · simp [mkButton, heq]
    · simp [mkButton, heq]

/-- Witness for C4, the spec's five-floor scenario: car at floor 3, all
other floors idle — buttons read 5,4,3,2,1 and the floor-3 button is the
disabled `Current` one. -/
theorem renderState_floor_buttons_witness :
    (renderState (some stateFive) sampleView).1.floorButtons
        = (fiveFloors.reverse).map mkButton ∧
    (((renderState (some stateFive) sampleView).1.floorButtons.length : Int) = 5) ∧
    (renderState (some stateFive) sampleView).1.floorButtons.map Button.textContent
        = ["5", "4", "3", "2", "1"] ∧
    (∃ b ∈ (renderState (some stateFive) sampleView).1.floorButtons,
      b.textContent = toString (3 : Int) ∧ b.disabled = true ∧
      "state-current" ∈ b.className) := by
  have h := renderState_floor_buttons stateFive sampleView [] fiveFloors 5 3
    rfl rfl rfl (by decide) rfl (by decide) (by decide) (by decide)
  exact ⟨h.1, h.2.1, by decide, h.2.2.2.2.2.2.2.2⟩

end ElevatorClient
